import Mathlib

/-!
Verification of the expression-language core of the `rester` repository
(`src/rester/lang.py`): the dynamic-precedence evaluator (`evaluate`,
lines 449-507), the `Context` environment (lines 61-105), and the builtin
special-form operators (`Assignment`, `ExprEval` for `$`,
`ContextExtraction` for `@`, `FunDef`/`Execution` for `->`, `Access`).

Modelling conventions:
* Python is unityped, so one inductive `V` covers runtime values, AST
  nodes (`Constant`, `Identifier`, `ListExpression`, `ExpressionList`,
  `Expression`) and operator objects.  Python lists double as token
  sequences (the evaluator's `isinstance(expr, list)` branch), so
  `V.pyList` is both a value and a token sequence.
* Python exceptions become the `Err` type; `Err.outOfFuel` is an artifact
  of the fuel-indexed embedding of Python's unbounded recursion (it is the
  analogue of exhausting the interpreter call stack, not a dedicated
  error raised by the code).
* Simple operator bindings are tuples `(callable, precedence)`; the
  callables installed by the driver are Python lambdas, embedded as the
  `Fn` tags together with `applyFn` (which reproduces each lambda's body,
  including its truthiness tests).
* `Context` mutation is threaded functionally: `evalV` returns the value
  together with the updated context.  `Context.copy` copies the owned
  mapping and shares the provider list, so on the functional rendering it
  is the identity on the record; the aliasing content of `copy` is proved
  separately on a heap-based model (`Store`/`CtxObj`) below.
* Providers (`IdentifierProvider.provide`) are modelled as finite lookup
  tables; a table returning no entry corresponds to `provide` returning
  `None` (absence).
-/

namespace Rester

/-- Python exceptions raised (or raisable) by the interpreter code.
`outOfFuel` is the embedding's rendering of unbounded recursion. -/
inductive Err where
  | typeError (msg : String)
  | valueError (msg : String)
  | attributeError (msg : String)
  | indexError
  | keyError
  | assertionError
  | outOfFuel
deriving DecidableEq, Repr

/-- Tags for the Python lambdas the driver installs as simple operators
(`lang.py` lines 659-663): `+`, `-`, `*`, `sum`. -/
inductive Fn where
  | add
  | sub
  | mul
  | sum
deriving DecidableEq, Repr

/-- The single runtime universe: Python values, AST nodes and operator
objects of `lang.py`.  `pyNone` is Python `None`; `pyList` is a Python
list (also the evaluator's token-sequence form); `const`, `ident`,
`listE`, `exprL`, `expr` are the AST classes `Constant`, `Identifier`,
`ListExpression`, `ExpressionList`, `Expression`; `tup2` is a Python
2-tuple (the `(callable, precedence)` operator binding shape); `fn` is a
bare lambda; the `op*` constructors are the operator object classes; and
`closure` is an `Execution` instance (parameter names, the bindings
context's providers/owned map, the defining context captured by the
nested class, and the body token list). -/
inductive V where
  | pyNone
  | int (n : Int)
  | str (s : String)
  | bool (b : Bool)
  | pyList (xs : List V)
  | dict (xs : List (String × V))
  | tup2 (a b : V)
  | const (v : V)
  | ident (name : String)
  | listE (items : List V)
  | exprL (items : List V)
  | expr (parts : List V)
  | fn (f : Fn)
  | opAssign
  | opExprEval
  | opCtxExtract
  | opFunDef
  | opAccess
  | closure (args : List String)
      (bindIds : List (String × V)) (bindProv : List (List (String × V)))
      (defIds : List (String × V)) (defProv : List (List (String × V)))
      (body : List V)

/-- Python-dict update on an association list: replace in place (keeping
the key's position) or append a fresh key, as `dict.__setitem__` does. -/
def dictSet (xs : List (String × V)) (k : String) (v : V) : List (String × V) :=
  match xs with
  | [] => [(k, v)]
  | (k1, v1) :: rest => if k1 = k then (k1, v) :: rest else (k1, v1) :: dictSet rest k v

/-- Python-dict deletion on an association list (keys are unique). -/
def dictDel (xs : List (String × V)) (k : String) : List (String × V) :=
  match xs with
  | [] => []
  | (k1, v1) :: rest => if k1 = k then rest else (k1, v1) :: dictDel rest k

/-- `Context` (lang.py lines 61-105): a shared provider list and an
insertion-ordered owned mapping `identifiers`. -/
structure Ctx where
  providers : List (List (String × V))
  identifiers : List (String × V)

/-- `IdentifierProvider.provide` for a table provider: a missing entry is
Python `None` (absence). -/
def provide (tbl : List (String × V)) (n : String) : V :=
  match tbl.lookup n with
  | some v => v
  | none => V.pyNone

/-- The provider loop of `Context.get`: first provider whose `provide`
is not `None` wins. -/
def getFromProviders : List (List (String × V)) → String → V
  | [], _ => V.pyNone
  | p :: ps, n =>
    match provide p n with
    | V.pyNone => getFromProviders ps n
    | v => v

/-- `Context.get` (lines 66-73): owned mapping first (even if the stored
value is `None`), then the providers in order; absence is `None`. -/
def Ctx.get (c : Ctx) (n : String) : V :=
  match c.identifiers.lookup n with
  | some v => v
  | none => getFromProviders c.providers n

/-- `Context.__contains__` (lines 89-96): owned-key membership (even for
a stored `None`), else some provider provides a non-`None` value. -/
def Ctx.contains (c : Ctx) (n : String) : Bool :=
  (c.identifiers.lookup n).isSome ||
    match getFromProviders c.providers n with
    | V.pyNone => false
    | _ => true

/-- `Context.__setitem__` (lines 78-79): owned mapping only. -/
def Ctx.set (c : Ctx) (n : String) (v : V) : Ctx :=
  { c with identifiers := dictSet c.identifiers n v }

/-- `Context.__delitem__` (lines 103-105): owned mapping only, no-op when
the key is absent there. -/
def Ctx.del (c : Ctx) (n : String) : Ctx :=
  if (c.identifiers.lookup n).isSome then
    { c with identifiers := dictDel c.identifiers n }
  else c

/-- `Context.copy` (lines 98-101): shares the provider list and copies the
owned mapping.  On this functional rendering a value copy is the record
itself; the aliasing content is proved on the heap model below. -/
def Ctx.copy (c : Ctx) : Ctx :=
  { providers := c.providers, identifiers := c.identifiers }

/-- Is this Python `None`? -/
def V.isNoneV : V → Bool
  | .pyNone => true
  | _ => false

/-- Python truthiness of the embedded values: `None` is falsy, numbers by
nonzero-ness, strings/lists/dicts by emptiness; `ListExpression` and
`ExpressionList` define `__len__` so they are falsy when empty; every
other object (AST nodes, operator objects, tuples, lambdas) is truthy. -/
def truthy : V → Bool
  | .pyNone => false
  | .int n => n != 0
  | .str s => s != ""
  | .bool b => b
  | .pyList xs => !xs.isEmpty
  | .dict xs => !xs.isEmpty
  | .listE xs => !xs.isEmpty
  | .exprL xs => !xs.isEmpty
  | _ => true

/-- `hasattr(x, "evaluate")`: true for the AST classes with an `evaluate`
method and for every operator object; notably FALSE for `Expression`
(it defines no `evaluate`), plain values, tuples and bare lambdas. -/
def hasEvaluate : V → Bool
  | .const _ => true
  | .ident _ => true
  | .listE _ => true
  | .exprL _ => true
  | .opAssign => true
  | .opExprEval => true
  | .opCtxExtract => true
  | .opFunDef => true
  | .opAccess => true
  | .closure .. => true
  | _ => false

/-- `isinstance(x, Operator)`: only `FunDef`, `Access` and `Execution`
subclass the `Operator` marker; `Assignment`, `ExprEval` and
`ContextExtraction` are plain classes. -/
def isOperatorInst : V → Bool
  | .opFunDef => true
  | .opAccess => true
  | .closure .. => true
  | _ => false

/-- Python `+` as used by the installed lambdas: int addition, string and
list concatenation, `ListExpression.__add__` (lines 340-346, raising its
`ValueError` on any other right operand); anything else is a `TypeError`.
(Bool-as-int arithmetic is not exercised and not modelled.) -/
def pyAdd : V → V → Except Err V
  | .int a, .int b => .ok (.int (a + b))
  | .str a, .str b => .ok (.str (a ++ b))
  | .pyList a, .pyList b => .ok (.pyList (a ++ b))
  | .listE a, .listE b => .ok (.listE (a ++ b))
  | .listE a, .pyList b => .ok (.listE (a ++ b))
  | .listE _, _ => .error (.valueError "Can only add ListExpression or list to ListExpression")
  | _, _ => .error (.typeError "unsupported operand type for +")

/-- Python binary `-` on the embedded values. -/
def pySub : V → V → Except Err V
  | .int a, .int b => .ok (.int (a - b))
  | _, _ => .error (.typeError "unsupported operand type for -")

/-- Python unary `-` on the embedded values. -/
def pyNeg : V → Except Err V
  | .int a => .ok (.int (-a))
  | _ => .error (.typeError "bad operand type for unary -")

/-- Python `*` on the embedded values. -/
def pyMul : V → V → Except Err V
  | .int a, .int b => .ok (.int (a * b))
  | _, _ => .error (.typeError "unsupported operand type for *")

/-- Python `sum(lst)`: fold `+` over the elements starting from `0`. -/
def pySum (args : List V) : Except Err V :=
  args.foldlM pyAdd (V.int 0)

/-- The driver's simple-operator lambdas (lang.py lines 659-663):
`+` is `lambda a, b: a + b if a else b`; `-` is
`lambda a, b: a - b if a else -b`; `*` is `lambda a, b: a * b if a else 0`;
`sum` is `lambda *lst: sum(lst) if lst else 0`.  The two-argument lambdas
raise a `TypeError` when called with any other number of positional
arguments; `sum` splats. -/
def applyFn : Fn → List V → Except Err V
  | .add, [a, b] => if truthy a then pyAdd a b else .ok b
  | .add, _ => .error (.typeError "lambda takes 2 positional arguments")
  | .sub, [a, b] => if truthy a then pySub a b else pyNeg b
  | .sub, _ => .error (.typeError "lambda takes 2 positional arguments")
  | .mul, [a, b] => if truthy a then pyMul a b else .ok (.int 0)
  | .mul, _ => .error (.typeError "lambda takes 2 positional arguments")
  | .sum, args => if args.isEmpty then .ok (.int 0) else pySum args

/-- Calling a resolved simple operator: only bare lambdas are callable
here; calling any other object raises `TypeError`. -/
def callFn (op : V) (args : List V) : Except Err V :=
  match op with
  | .fn f => applyFn f args
  | _ => .error (.typeError "object is not callable")

/-- One step of the evaluator's operator scan (lines 460-474): only
`Identifier` tokens are looked up; an absent binding (Python `None`) is
skipped; a 2-tuple is destructured into callable and precedence (a
non-integer precedence would fail the `<` comparison); a bare `Operator`
instance gets implicit precedence 100; anything else is skipped. -/
def resolveOpTok (c : Ctx) (t : V) : Except Err (Option (V × Int)) :=
  match t with
  | .ident n =>
    match c.get n with
    | .pyNone => .ok none
    | .tup2 f (.int p) => .ok (some (f, p))
    | .tup2 _ _ => .error (.typeError "precedence comparison unsupported")
    | b => if isOperatorInst b then .ok (some (b, 100)) else .ok none
  | _ => .ok none

/-- The scan loop of `evaluate` (lines 457-474): track the minimum
precedence seen so far with a strict `<` against the sentinel `1000000`,
so the leftmost token among those of equal minimal precedence is kept. -/
def scanToks (c : Ctx) : List V → Nat → Int → Option (Nat × V) →
    Except Err (Option (Nat × V))
  | [], _, _, best => .ok best
  | t :: ts, i, minP, best =>
    match resolveOpTok c t with
    | .error e => .error e
    | .ok none => scanToks c ts (i + 1) minP best
    | .ok (some (op, p)) =>
      if p < minP then scanToks c ts (i + 1) p (some (i, op))
      else scanToks c ts (i + 1) minP best

/-- The simple-callable application step of `evaluate` (lines 486-501):
with both evaluated sides non-`None`, broadcast over a plain-`list` side
when exactly one side is a plain list, else call with both values; with a
`None` side, splat a plain-`list` side, else call with both values
(the `None` included). -/
def simpleApply (op lv rv : V) : Except Err V :=
  if !lv.isNoneV && !rv.isNoneV then
    match lv, rv with
    | .pyList xs, .pyList ys => callFn op [.pyList xs, .pyList ys]
    | .pyList xs, _ => do
      let vs ← xs.mapM (fun item => callFn op [item, rv])
      .ok (.pyList vs)
    | _, .pyList ys => do
      let vs ← ys.mapM (fun item => callFn op [lv, item])
      .ok (.pyList vs)
    | _, _ => callFn op [lv, rv]
  else
    match lv, rv with
    | .pyList xs, _ => callFn op xs
    | _, .pyList ys => callFn op ys
    | _, _ => callFn op [lv, rv]

/-- Result type of one `evaluate` call: the value together with the
(possibly mutated) context it ran in. -/
abbrev Res := Except Err (V × Ctx)

/-- The type of the recursive `evaluate` callback threaded through the
helper definitions below (one application = one Python `evaluate` call). -/
abbrev EvalFun := Ctx → V → Res

/-- The list comprehension `[evaluate(context, e) for e in expr]`,
threading the context mutations left to right (Python shares the one
context object across the comprehension). -/
def evalEachF (ev : EvalFun) : Ctx → List V → Except Err (List V × Ctx)
  | c, [] => .ok ([], c)
  | c, x :: xs => do
    let (v, c1) ← ev c x
    let (vs, c2) ← evalEachF ev c1 xs
    .ok (v :: vs, c2)

/-- `Execution.__init__` (lines 599-604): store the parameter names and
the bindings context, deleting from the bindings any name that collides
with a parameter (`in` consults providers, `del` only the owned map). -/
def mkExecution (args : List String) (bindings : Ctx)
    (defIds : List (String × V)) (defProv : List (List (String × V)))
    (body : List V) : V :=
  let b2 := args.foldl (fun bc a => if bc.contains a then bc.del a else bc) bindings
  .closure args b2.identifiers b2.providers defIds defProv body

/-- The binding loop of `Execution.evaluate` (lines 622-624): bind each
supplied argument by position unless the name is already visible in the
bindings context (ownership or providers). -/
def bindArgs (bc : Ctx) (args : List String) (vals : List V) : Ctx :=
  (args.zip vals).foldl (fun acc p => if acc.contains p.1 then acc else acc.set p.1 p.2) bc

/-- Python iteration of `vals = right[0]` (`for val in vals`, line 618):
an `ExpressionList` yields its items, a plain list its elements, a string
its characters; every other token object is not iterable and raises
`TypeError` (notably `Constant`, `Identifier` and `Expression`). -/
def pyIter : V → Except Err (List V)
  | .exprL items => .ok items
  | .pyList xs => .ok xs
  | .str s => .ok (s.data.map (fun ch => V.str (String.mk [ch])))
  | _ => .error (.typeError "object is not iterable")

set_option linter.unusedVariables false in
/-- `Execution.evaluate` (lines 605-629) with actual operand token lists.
The caller's context parameter is immediately shadowed by
`ctx = self.bindings` (line 606) and is never used afterwards (hence the
deliberately unused binder); argument tokens are evaluated in the
`context` variable captured from `FunDef.evaluate` — the defining
context — at line 618.  Returns the value only: the caller's context is
not mutated by an application.  (Python also mutates the applied closure
object's own `bindings` in place, observable only on a later reuse of
that same object; the functional rendering returns the new partially
applied closure built from the updated bindings, which is what every
claim observes.) -/
def applyClosureVF (ev : EvalFun) (callerCtx : Ctx) (args : List String)
    (bindIds : List (String × V)) (bindProv : List (List (String × V)))
    (defIds : List (String × V)) (defProv : List (List (String × V)))
    (body : List V) (left right : List V) : Except Err V :=
  if !left.isEmpty then .error .assertionError
  else
    match right with
    | [] => .error .indexError
    | r0 :: _ => do
      let vals ← pyIter r0
      let (evals, _) ← evalEachF ev { providers := defProv, identifiers := defIds } vals
      if evals.length > args.length then
        .error (.valueError "Too many arguments provided to function")
      else
        let ctx1 := bindArgs { providers := bindProv, identifiers := bindIds } args evals
        let unassigned := args.filter (fun a => !ctx1.contains a)
        if unassigned.isEmpty then do
          let (v, _) ← ev ctx1 (.pyList body)
          .ok v
        else
          .ok (mkExecution unassigned ctx1.copy defIds defProv body)

/-- `right[0].name` / `x.name`: only `Identifier` carries a `name`. -/
def tokName : V → Except Err String
  | .ident n => .ok n
  | _ => .error (.attributeError "name")

/-- `FunDef.evaluate` parameter extraction from an `ExpressionList`
(line 591): `[x[0].name for x in left[0].items]`, each item being the
token list of one comma-separated expression. -/
def paramNamesEL : List V → Except Err (List String)
  | [] => .ok []
  | it :: rest => do
    let n ← match it with
      | .pyList [] => .error .indexError
      | .pyList (t :: _) => tokName t
      | .exprL [] => .error .indexError
      | .exprL (t :: _) => tokName t
      | _ => .error (.typeError "object is not subscriptable")
    let ns ← paramNamesEL rest
    .ok (n :: ns)

/-- `Assignment.evaluate` tail (lines 673-678): require an `Identifier`
target, evaluate the right tokens fully, bind the name, return the
assigned value. -/
def assignToF (ev : EvalFun) (c : Ctx) (target : V) (right : List V) : Res :=
  match target with
  | .ident n => do
    let (rv, c2) ← ev c (.pyList right)
    .ok (rv, c2.set n rv)
  | _ => .error (.valueError "Left side of assignment must be an identifier")

/-- Dispatch of `min_op.evaluate(context, left, right)` over the operator
object classes (the special forms), each translated from its class in
`lang.py`:

* `opAssign` — `Assignment.evaluate` (lines 666-678): a single-token left
  side is used literally, otherwise the left tokens are evaluated and
  must yield an `Identifier`.
* `opExprEval` — `ExprEval.evaluate` for `$` (lines 532-545): empty left;
  exactly one right token, evaluated in the caller's context (an
  `Expression` evaluates to itself); the quoted parts are evaluated in a
  context copy, whose mutations are then discarded; a list result yields
  its last element.
* `opCtxExtract` — `ContextExtraction.evaluate` for `@` (lines 547-567):
  with empty left, evaluate `right[0].parts` in a context copy and return
  that copy's full owned mapping.
* `opFunDef` — `FunDef.evaluate` for `->` (lines 587-636): parameter
  names from `left[0]`, body from a single `Expression` right token or
  the raw right tokens, producing an `Execution` over a copy of the
  current context, which the nested class also captures as the defining
  context.
* `opAccess` — `Access.evaluate` (lines 639-646): member access.
* AST nodes bound as operators have an `evaluate` of the wrong arity and
  raise `TypeError`. -/
def applyOpF (ev : EvalFun) (op : V) (c : Ctx) (left right : List V) : Res :=
  match op with
  | .opAssign =>
    match left with
    | [t] => assignToF ev c t right
    | _ => do
      let (lv, c1) ← ev c (.pyList left)
      match lv with
      | .ident n => assignToF ev c1 (.ident n) right
      | _ => .error (.valueError "Left side of assignment must be a single identifier")
  | .opExprEval =>
    if !left.isEmpty then .error (.valueError "Left side of $ operator must be empty")
    else
      match right with
      | [r0] => do
        let (e, c1) ← ev c r0
        let localCtx := c1.copy
        match e with
        | .expr ps => do
          let (result, _) ← ev localCtx (.pyList ps)
          match result with
          | .pyList xs => .ok (xs.getLast?.getD V.pyNone, c1)
          | _ => .ok (result, c1)
        | _ => .error (.attributeError "parts")
      | _ => .error (.valueError "Right side of $ operator must be a single Expression")
  | .opCtxExtract =>
    match left with
    | [] =>
      match right with
      | [] => .error .indexError
      | r0 :: _ =>
        match r0 with
        | .expr ps => do
          let my := c.copy
          let (_, my1) ← ev my (.pyList ps)
          .ok (.dict my1.identifiers, c)
        | _ => .error (.attributeError "parts")
    | [l0] =>
      match right with
      | [r0] =>
        match r0 with
        | .expr _ => do
          let my := c.copy
          let (idv, my1) ← ev my l0
          let (e2, my2) ← ev my1 r0
          match idv with
          | .str s =>
            match e2 with
            | .expr ps2 => do
              let (_, my3) ← ev my2 (.pyList ps2)
              .ok (my3.get s, c)
            | _ => .error (.attributeError "parts")
          | .expr ips =>
            match e2 with
            | .expr ps2 => do
              let (_, my3) ← ev my2 (.pyList ps2)
              let (v, _) ← ev my3 (.pyList ips)
              .ok (v, c)
            | _ => .error (.attributeError "parts")
          | _ => .ok (V.pyNone, c)
        | _ => .error (.valueError "Right side of context extraction must be an Expression")
      | _ => .error (.valueError "Right side of context extraction must be a single expression")
    | _ => .error (.valueError "Left side of context extraction must be a single identifier name")
  | .opFunDef =>
    match left with
    | [] => .error .indexError
    | l0 :: _ => do
      let args ← match l0 with
        | .exprL items => paramNamesEL items
        | .pyList toks => toks.mapM tokName
        | .str s => (s.data.map (fun ch => V.str (String.mk [ch]))).mapM tokName
        | _ => .error (.typeError "object is not iterable")
      let body := match right with
        | [V.expr ps] => ps
        | _ => right
      .ok (mkExecution args c.copy c.identifiers c.providers body, c)
  | .opAccess =>
    match right with
    | [r0] => do
      let (lv, c1) ← ev c (.pyList left)
      let n ← tokName r0
      let (result, c2) ← ev c1 lv
      if result.isNoneV then .ok (V.pyNone, c2)
      else
        match result with
        | .dict xs =>
          match xs.lookup n with
          | some v => .ok (v, c2)
          | none => .error .keyError
        | _ => .error (.typeError "object is not subscriptable")
    | _ => .error .assertionError
  | .closure args bindIds bindProv defIds defProv body => do
    let v ← applyClosureVF ev c args bindIds bindProv defIds defProv body left right
    .ok (v, c)
  | _ => .error (.typeError "evaluate() takes 2 positional arguments")

/-- The token-sequence branch of `evaluate` (lines 450-501): empty is
`None`; a singleton recurses; otherwise scan for the leftmost minimal
precedence operator.  No operator found means element-wise evaluation
(juxtaposition).  A falsy chosen operator raises the dead-code
`ValueError`; a chosen operator with an `evaluate` attribute is a special
form applied to the raw sub-sequences; otherwise both sides are evaluated
(`evaluate(context, left)` and `evaluate(context, right)` on the raw
Python lists) and the simple-application step runs.  (The source's
`if op_index == -1 and len(expr) == 1` branch at line 475 is dead code —
singletons were already handled — and is omitted.) -/
def evalSeqF (ev : EvalFun) (c : Ctx) (xs : List V) : Res :=
  match xs with
  | [] => .ok (V.pyNone, c)
  | [x] => ev c x
  | _ => do
    let best ← scanToks c xs 0 1000000 none
    match best with
    | none => do
      let (vs, c1) ← evalEachF ev c xs
      .ok (.pyList vs, c1)
    | some (i, op) =>
      let left := xs.take i
      let right := xs.drop (i + 1)
      if !truthy op then .error (.valueError "Operator not found in context")
      else if hasEvaluate op then applyOpF ev op c left right
      else do
        let (lv, c1) ← ev c (.pyList left)
        let (rv, c2) ← ev c1 (.pyList right)
        let v ← simpleApply op lv rv
        .ok (v, c2)

/-- `evaluate(context, expr)` (lines 449-507), fuel-indexed: one unit of
fuel per Python `evaluate` call (the fuel stands for the unbounded call
stack).  Lists take the token-sequence branch; objects with an `evaluate`
method run it — `Constant` returns its value, `Identifier` returns the
context lookup (which is `None` when the name is absent),
`ListExpression` and `ExpressionList` map evaluation over their items
(the latter collapsing a singleton), an `Execution` called without
operands re-instantiates itself over a copy of its bindings, and the
other operator objects lack the operand arguments and raise `TypeError`;
everything else (including `Expression`) is returned unchanged. -/
def evalV : Nat → Ctx → V → Res
  | 0, _, _ => .error .outOfFuel
  | f + 1, c, v =>
    match v with
    | .pyList xs => evalSeqF (evalV f) c xs
    | .const x => .ok (x, c)
    | .ident n => .ok (c.get n, c)
    | .listE items => do
      let (vs, c1) ← evalEachF (evalV f) c items
      .ok (.listE vs, c1)
    | .exprL items => do
      let (vs, c1) ← evalEachF (evalV f) c items
      match vs with
      | [v1] => .ok (v1, c1)
      | _ => .ok (.pyList vs, c1)
    | .closure args bindIds bindProv defIds defProv body =>
      .ok (mkExecution args (Ctx.copy { providers := bindProv, identifiers := bindIds })
        defIds defProv body, c)
    | .opAssign => .error (.typeError "evaluate() missing positional arguments")
    | .opExprEval => .error (.typeError "evaluate() missing positional arguments")
    | .opCtxExtract => .error (.typeError "evaluate() missing positional arguments")
    | .opFunDef => .error (.typeError "evaluate() missing positional arguments")
    | .opAccess => .error (.typeError "evaluate() missing positional arguments")
    | other => .ok (other, c)

/-! ### Helper lemmas for symbolic execution of the evaluator -/

@[simp] theorem bindOkR {A B : Type} (x : A) (g : A → Except Err B) :
    (Except.ok x : Except Err A) >>= g = g x := rfl

@[simp] theorem bindErrR {A B : Type} (e : Err) (g : A → Except Err B) :
    (Except.error e : Except Err A) >>= g = Except.error e := rfl

/-- Did this evaluation succeed (no exception)? -/
def okB {A : Type} : Except Err A → Bool
  | .ok _ => true
  | .error _ => false

theorem evalSeqF_single (ev : EvalFun) (c : Ctx) (x : V) :
    evalSeqF ev c [x] = ev c x := rfl

theorem evalV_pyList (f : Nat) (c : Ctx) (xs : List V) :
    evalV (f + 1) c (.pyList xs) = evalSeqF (evalV f) c xs := rfl

theorem evalV_const (f : Nat) (c : Ctx) (v : V) :
    evalV (f + 1) c (.const v) = .ok (v, c) := rfl

theorem evalV_ident (f : Nat) (c : Ctx) (n : String) :
    evalV (f + 1) c (.ident n) = .ok (c.get n, c) := rfl

theorem evalV_expr (f : Nat) (c : Ctx) (ps : List V) :
    evalV (f + 1) c (.expr ps) = .ok (.expr ps, c) := rfl

/-! ### Concrete contexts from the driver (`lang.py` lines 657-686)

The `__main__` driver installs the simple operators and the special forms
as `(object, precedence)` tuples in the owned mapping of a fresh context.
(`/`, `identifiers`, `id`, `random` and the builtin provider involve
floats, randomness or reflection not needed by any claim and are left
out; claims never mention them.) -/

def driverOps : List (String × V) :=
  [("+", .tup2 (.fn .add) (.int 10)),
   ("-", .tup2 (.fn .sub) (.int 10)),
   ("*", .tup2 (.fn .mul) (.int 20)),
   ("sum", .tup2 (.fn .sum) (.int 30)),
   (".", .tup2 .opAccess (.int 999)),
   ("=", .tup2 .opAssign (.int 0)),
   ("$", .tup2 .opExprEval (.int 1000)),
   ("@", .tup2 .opCtxExtract (.int 1000)),
   ("->", .tup2 .opFunDef (.int 5))]

/-- The driver's top context with the operator bindings owned. -/
def driverCtx : Ctx := { providers := [], identifiers := driverOps }

/-- A context whose operator bindings come from a provider instead of the
owned mapping, so the owned mapping starts empty (used where a claim
speaks about the owned-binding map itself). -/
def provCtx : Ctx := { providers := [driverOps], identifiers := [] }

/-! ### C1: equal-precedence operators associate to the right -/

/-- C1 (confirmed): in every context binding `-` to the subtraction
lambda as a simple operator at a single precedence (below the scan's
`1000000` sentinel), evaluating the flat token sequence `a - b - c`
splits at the leftmost minimal-precedence occurrence (strict `<` keeps
the first of equal-precedence candidates) and recurses into the right
remainder, producing `a - (b - c)`; for `1 - 2 - 3` this is `2`,
not `-4`. -/
theorem c1_equal_precedence_right_assoc (f : Nat) (c : Ctx) (p a b d : Int)
    (hp : p < 1000000)
    (h : c.get "-" = V.tup2 (.fn .sub) (.int p)) :
    evalV (f + 5) c (.pyList [.const (.int a), .ident "-", .const (.int b),
      .ident "-", .const (.int d)]) = .ok (.int (a - (b - d)), c) := by
  rw [show f + 5 = (f + 4) + 1 from rfl, evalV_pyList]
  simp only [evalSeqF, scanToks, resolveOpTok, h, hp, if_pos, if_neg,
    lt_self_iff_false, not_false_iff, List.take, List.drop]
  simp only [bindOkR, bindErrR, Nat.zero_add]
  norm_num [truthy, hasEvaluate]
  rw [show f + 4 = (f + 3) + 1 from rfl]
  simp only [evalV_pyList, evalSeqF_single]
  rw [show f + 3 = (f + 2) + 1 from rfl]
  simp only [evalV_const, bindOkR]
  simp only [evalSeqF, scanToks, resolveOpTok, h, hp, if_pos, if_neg,
    lt_self_iff_false, not_false_iff, List.take, List.drop]
  simp only [bindOkR, bindErrR, Nat.zero_add]
  norm_num [truthy, hasEvaluate]
  rw [show f + 2 + 1 = (f + 1) + 1 + 1 from rfl]
  simp only [evalV_pyList, evalSeqF_single, evalV_const, bindOkR]
  rcases eq_or_ne b 0 with hb | hb <;> rcases eq_or_ne a 0 with ha | ha <;>
    simp [simpleApply, V.isNoneV, callFn, applyFn, truthy, pySub, pyNeg,
      ha, hb]

/-- Witness for C1: in the driver context (where `-` has precedence 10),
`1 - 2 - 3` evaluates to `2`. -/
theorem c1_witness :
    ((10 : Int) < 1000000 ∧ driverCtx.get "-" = V.tup2 (.fn .sub) (.int 10)) ∧
    evalV 5 driverCtx (.pyList [.const (.int 1), .ident "-", .const (.int 2),
      .ident "-", .const (.int 3)]) = .ok (.int 2, driverCtx) := by
  refine ⟨⟨by norm_num, rfl⟩, ?_⟩
  have h := c1_equal_precedence_right_assoc 0 driverCtx 10 1 2 3 (by norm_num) rfl
  norm_num at h
  exact h

/-! ### C2: evaluating an unbound identifier -/

/-- C2 counterexample: in a context whose owned mapping and single
provider both lack `zz`, evaluating the identifier `zz` succeeds with
Python `None` — it does not fail with any error, contradicting the
claimed `UnboundIdentifier` failure. -/
theorem c2_unbound_identifier_cex :
    evalV 5 { providers := [[("a", V.int 1)]], identifiers := [] } (V.ident "zz") =
      .ok (V.pyNone, { providers := [[("a", V.int 1)]], identifiers := [] }) ∧
    okB (evalV 5 { providers := [[("a", V.int 1)]], identifiers := [] }
      (V.ident "zz")) = true :=
  ⟨rfl, rfl⟩

/-- C2 (corrected): for every context and every identifier bound neither
in the owned mapping nor in any provider of the chain (`Context.get`
yields `None`), evaluating the identifier returns Python `None` as a
normal result — absence is surfaced as a `Null` value, not as an
`UnboundIdentifier` error (`Identifier.evaluate` simply returns
`context[self.name]`). -/
theorem c2_unbound_identifier_yields_none (f : Nat) (c : Ctx) (n : String)
    (h : c.get n = V.pyNone) :
    evalV (f + 1) c (.ident n) = .ok (V.pyNone, c) := by
  rw [evalV_ident, h]

/-- Witness for C2: the empty context lacks `zz` and evaluating it
yields `None`. -/
theorem c2_unbound_identifier_witness :
    (Ctx.mk [] []).get "zz" = V.pyNone ∧
    evalV 1 (Ctx.mk [] []) (V.ident "zz") = .ok (V.pyNone, Ctx.mk [] []) :=
  ⟨rfl, c2_unbound_identifier_yields_none 0 (Ctx.mk [] []) "zz" rfl⟩

theorem evalV_exprL (f : Nat) (c : Ctx) (items : List V) :
    evalV (f + 1) c (.exprL items) =
      (do
        let (vs, c1) ← evalEachF (evalV f) c items
        match vs with
        | [v1] => Except.ok (v1, c1)
        | _ => Except.ok (.pyList vs, c1)) := rfl

/-- Parameter names still awaited by an `Execution` closure value. -/
def closureParams : V → Option (List String)
  | .closure args _ _ _ _ _ => some args
  | _ => none

/-- The parsed token sequence of `f = (x, y) -> x + y`. -/
def funDefToks : List V :=
  [.ident "f", .ident "=", .exprL [.pyList [.ident "x"], .pyList [.ident "y"]],
   .ident "->", .ident "x", .ident "+", .ident "y"]

/-! ### C3: closure application and currying -/

/-- C3 (code bug): after `f = (x, y) -> x + y` in the driver context,
applying `f` to the bare token `3` (`f 3`) crashes — `Execution.evaluate`
sets `vals = right[0]` and iterates it, and a `Constant` is not iterable,
so Python raises `TypeError` instead of returning the partially-applied
closure the claim (and spec) describe.  The currying machinery does work
when the arguments arrive as a parenthesized `ExpressionList`:
`f (3)` yields a closure awaiting exactly `y`, applying that closure to
`(4)` yields `7`, and `f (1, 2, 3)` raises the too-many-arguments
`ValueError` (the spec's `ArityMismatch`). -/
theorem c3_closure_application :
    ((do
        let s1 ← evalV 40 driverCtx (.pyList funDefToks)
        evalV 40 s1.2 (.pyList [.ident "f", .const (.int 3)]))
      = .error (.typeError "object is not iterable")) ∧
    (Except.map (fun rc => closureParams rc.1)
      (do
        let s1 ← evalV 40 driverCtx (.pyList funDefToks)
        evalV 40 s1.2 (.pyList [.ident "f", .exprL [.pyList [.const (.int 3)]]]))
      = .ok (some ["y"])) ∧
    (Except.map (fun rc => rc.1)
      (do
        let s1 ← evalV 60 driverCtx (.pyList funDefToks)
        let s2 ← evalV 60 s1.2 (.pyList [.ident "g", .ident "=", .ident "f",
          .exprL [.pyList [.const (.int 3)]]])
        evalV 60 s2.2 (.pyList [.ident "g", .exprL [.pyList [.const (.int 4)]]]))
      = .ok (.int 7)) ∧
    ((do
        let s1 ← evalV 40 driverCtx (.pyList funDefToks)
        evalV 40 s1.2 (.pyList [.ident "f", .exprL [.pyList [.const (.int 1)],
          .pyList [.const (.int 2)], .pyList [.const (.int 3)]]]))
      = .error (.valueError "Too many arguments provided to function")) :=
  ⟨rfl, rfl, rfl, rfl⟩

/-! ### C4: broadcasting a simple operator over a list side -/

/-- C4 (code bug): the broadcast branch of `evaluate` tests
`isinstance(..., list)`, but an array literal `[1, 2, 3]` evaluates to a
`ListExpression` object, which is not a Python `list`; so
`[1, 2, 3] + 1` is not broadcast — it reaches the plain two-argument call
and `ListExpression.__add__` raises `ValueError`, instead of yielding
`[2, 3, 4]` as the claim (and spec) state.  Broadcasting does happen when
one side evaluates to a plain Python list: for every integers `a b d k`,
the parenthesized `(a, b, d) + k` (whose `ExpressionList` evaluates to a
plain list) yields `[a+k, b+k, d+k]`. -/
theorem c4_broadcast :
    (evalV 20 driverCtx (.pyList [.listE [.pyList [.const (.int 1)],
        .pyList [.const (.int 2)], .pyList [.const (.int 3)]],
        .ident "+", .const (.int 1)])
      = .error (.valueError "Can only add ListExpression or list to ListExpression")) ∧
    (∀ (f : Nat) (a b d k : Int),
      evalV (f + 7) driverCtx (.pyList [.exprL [.pyList [.const (.int a)],
        .pyList [.const (.int b)], .pyList [.const (.int d)]],
        .ident "+", .const (.int k)])
      = .ok (.pyList [.int (a + k), .int (b + k), .int (d + k)], driverCtx)) := by
  refine ⟨rfl, fun f a b d k => ?_⟩
  have hplus : driverCtx.get "+" = V.tup2 (.fn .add) (.int 10) := rfl
  rw [show f + 7 = (f + 6) + 1 from rfl, evalV_pyList]
  simp only [evalSeqF, scanToks, resolveOpTok, hplus, if_pos, if_neg,
    lt_self_iff_false, not_false_iff, List.take, List.drop]
  simp only [bindOkR, bindErrR, Nat.zero_add]
  norm_num [truthy, hasEvaluate]
  rw [show f + 6 = (f + 5) + 1 from rfl]
  simp only [evalV_pyList, evalSeqF_single]
  rw [show f + 5 = (f + 4) + 1 from rfl]
  simp only [evalV_exprL, evalV_const, bindOkR, evalEachF]
  rw [show f + 4 = (f + 3) + 1 from rfl]
  simp only [evalV_pyList, evalSeqF_single]
  rw [show f + 3 = (f + 2) + 1 from rfl]
  simp only [evalV_const, bindOkR]
  rcases eq_or_ne a 0 with ha | ha <;> rcases eq_or_ne b 0 with hb | hb <;>
    rcases eq_or_ne d 0 with hd | hd <;>
    simp [simpleApply, V.isNoneV, callFn, applyFn, truthy, pyAdd,
      List.mapM.loop, ha, hb, hd]

/-! ### C5: scoped extraction with empty left returns the owned map -/

/-- C5 (confirmed): `ContextExtraction.evaluate` with empty left
evaluates `right[0].parts` in a copy of the context and returns the
copy's full resulting owned-binding mapping, leaving the caller's context
untouched; concretely, in a context whose operator bindings come from a
provider (owned map empty), `@(a = 1; b = 2)` returns the map
`{a: 1, b: 2}`. -/
theorem c5_context_extraction :
    (evalV 30 provCtx (.pyList [.ident "@",
        .expr [.pyList [.ident "a", .ident "=", .const (.int 1)],
               .pyList [.ident "b", .ident "=", .const (.int 2)]]])
      = .ok (.dict [("a", V.int 1), ("b", V.int 2)], provCtx)) ∧
    (∀ (f : Nat) (c : Ctx) (ps : List V) (vv : V) (m : Ctx),
      evalV f c.copy (.pyList ps) = .ok (vv, m) →
      applyOpF (evalV f) .opCtxExtract c [] [.expr ps] =
        .ok (.dict m.identifiers, c)) := by
  refine ⟨rfl, fun f c ps vv m h => ?_⟩
  simp only [applyOpF, h, bindOkR]

/-- Witness for C5: the hypothesis of the general part holds for the
body `a = 1; b = 2` in the provider-backed context, which yields the
owned map `{a: 1, b: 2}`. -/
theorem c5_context_extraction_witness :
    (evalV 29 provCtx.copy (.pyList [.pyList [.ident "a", .ident "=", .const (.int 1)],
        .pyList [.ident "b", .ident "=", .const (.int 2)]])
      = .ok (.pyList [.int 1, .int 2],
          { providers := [driverOps], identifiers := [("a", V.int 1), ("b", V.int 2)] })) ∧
    applyOpF (evalV 29) .opCtxExtract provCtx []
      [.expr [.pyList [.ident "a", .ident "=", .const (.int 1)],
              .pyList [.ident "b", .ident "=", .const (.int 2)]]] =
      .ok (.dict [("a", V.int 1), ("b", V.int 2)], provCtx) :=
  ⟨rfl, c5_context_extraction.2 29 provCtx
    [.pyList [.ident "a", .ident "=", .const (.int 1)],
     .pyList [.ident "b", .ident "=", .const (.int 2)]]
    (.pyList [.int 1, .int 2])
    { providers := [driverOps], identifiers := [("a", V.int 1), ("b", V.int 2)] }
    rfl⟩

/-! ### C6: `$` evaluates in a context copy; no mutation escapes -/

/-- C6 (confirmed): `ExprEval.evaluate` (the `$` operator) requires an
empty left side and a single quoted `Expression` right side, evaluates
the quoted statements in a copy of the context, and hands back the
caller's context unchanged — so after `x = 1; $(x = 2)` the outer `x` is
still `1` while `$` itself returned `2`; with a multi-statement body the
last statement's value is returned (`$(x = 2; 7)` is `7`); and in
general every successful `$` application returns the caller's context
unmodified. -/
theorem c6_scoped_eval_isolation :
    ((do
        let s1 ← evalV 30 provCtx (.pyList [.ident "x", .ident "=", .const (.int 1)])
        let s2 ← evalV 30 s1.2 (.pyList [.ident "$",
          .expr [.pyList [.ident "x", .ident "=", .const (.int 2)]]])
        let s3 ← evalV 30 s2.2 (.pyList [.ident "x"])
        Except.ok (s2.1, s3.1, s2.2.identifiers))
      = .ok (V.int 2, V.int 1, [("x", V.int 1)])) ∧
    (Except.map Prod.fst
      (do
        let s1 ← evalV 30 provCtx (.pyList [.ident "x", .ident "=", .const (.int 1)])
        evalV 30 s1.2 (.pyList [.ident "$",
          .expr [.pyList [.ident "x", .ident "=", .const (.int 2)],
                 .pyList [.const (.int 7)]]]))
      = .ok (V.int 7)) ∧
    (∀ (f : Nat) (c : Ctx) (ps : List V) (r : V × Ctx),
      applyOpF (evalV f) .opExprEval c [] [.expr ps] = .ok r → r.2 = c) := by
  refine ⟨rfl, rfl, fun f c ps r h => ?_⟩
  cases f with
  | zero => simp [applyOpF, evalV] at h
  | succ g =>
    simp only [applyOpF, evalV_expr, bindOkR, List.isEmpty_nil,
      Bool.not_false, if_neg] at h
    rcases hin : evalV (g + 1) (Ctx.copy c) (.pyList ps) with e | pr
    · rw [hin] at h
      exact absurd h (by simp)
    · rw [hin] at h
      rcases pr with ⟨res, cx⟩
      cases res <;> simp_all <;> exact (congrArg Prod.snd h).symm

/-- Witness for C6: the general no-escape part applied to the body
`x = 2` in the provider-backed context. -/
theorem c6_scoped_eval_isolation_witness :
    applyOpF (evalV 20) .opExprEval provCtx []
      [.expr [.pyList [.ident "x", .ident "=", .const (.int 2)]]] =
      .ok (.int 2, provCtx) ∧
    ((.int 2, provCtx) : V × Ctx).2 = provCtx :=
  ⟨rfl, c6_scoped_eval_isolation.2.2 20 provCtx
    [.pyList [.ident "x", .ident "=", .const (.int 2)]] (.int 2, provCtx) rfl⟩

/-! ### C7: a simple operator with one empty side -/

/-- C7 counterexample: with `sum` bound as the splatting simple operator
and an empty left side, the claim says the callable receives only the
non-empty side's evaluated value, which would give
`sum(3) = 3` (second conjunct); but the code's final branch (line 501)
calls `min_op(left_evaluated, right_evaluated)` — passing the empty
side's `None` as a first positional argument — so `sum None 3` folds
`0 + None` and raises `TypeError`. -/
theorem c7_unary_splat_cex :
    evalV 10 driverCtx (.pyList [.ident "sum", .const (.int 3)]) =
      .error (.typeError "unsupported operand type for +") ∧
    applyFn .sum [V.int 3] = .ok (.int 3) ∧
    okB (evalV 10 driverCtx (.pyList [.ident "sum", .const (.int 3)])) = false :=
  ⟨rfl, rfl, rfl⟩

/-- C7 (corrected): when one side of a simple operator is empty (its
evaluation is `None`), the callable is called with only the other side's
values — splatted — exactly when that other side evaluates to a plain
Python list; when it evaluates to a non-list value the callable is
called with two positional arguments, the empty side contributing
`None`.  Concretely `sum (3, 4)` is `7` (only the two list elements are
passed) and `- 5` is `-5` (the subtraction lambda receives `(None, 5)`
and takes its falsy branch). -/
theorem c7_unary_application :
    (∀ (g : Fn) (ys : List V),
      simpleApply (V.fn g) V.pyNone (V.pyList ys) = callFn (V.fn g) ys) ∧
    (∀ (g : Fn) (xs : List V),
      simpleApply (V.fn g) (V.pyList xs) V.pyNone = callFn (V.fn g) xs) ∧
    (∀ (g : Fn) (n : Int),
      simpleApply (V.fn g) V.pyNone (V.int n) =
        callFn (V.fn g) [V.pyNone, V.int n]) ∧
    (evalV 10 driverCtx (.pyList [.ident "sum",
        .exprL [.pyList [.const (.int 3)], .pyList [.const (.int 4)]]]) =
      .ok (.int 7, driverCtx)) ∧
    (evalV 10 driverCtx (.pyList [.ident "-", .const (.int 5)]) =
      .ok (.int (-5), driverCtx)) :=
  ⟨fun _ _ => rfl, fun _ _ => rfl, fun _ _ => rfl, rfl, rfl⟩

/-! ### C8: there is no recursion limit in the evaluator -/

mutual

/-- Nesting depth of a token/value: one per layer of list-like or
`Constant`/tuple structure. -/
def tokDepth : V → Nat
  | .pyList xs => 1 + tokDepthList xs
  | .listE xs => 1 + tokDepthList xs
  | .exprL xs => 1 + tokDepthList xs
  | .expr xs => 1 + tokDepthList xs
  | .const v => 1 + tokDepth v
  | .tup2 a b => 1 + max (tokDepth a) (tokDepth b)
  | _ => 1

/-- Maximum nesting depth over a token list. -/
def tokDepthList : List V → Nat
  | [] => 0
  | x :: xs => max (tokDepth x) (tokDepthList xs)

end

/-- A family of ever-deeper expressions: `d` layers of a parenthesized
singleton around the constant `1`. -/
def nestTok : Nat → V
  | 0 => .const (.int 1)
  | d + 1 => .exprL [.pyList [nestTok d]]

/-- The empty context. -/
def emptyCtx : Ctx := { providers := [], identifiers := [] }

theorem nestTok_depth (d : Nat) : tokDepth (nestTok d) = 2 * d + 2 := by
  induction d with
  | zero => rfl
  | succ n ih =>
    simp only [nestTok, tokDepth, tokDepthList, ih]
    omega

theorem nestTok_eval (d : Nat) :
    evalV (2 * d + 1) emptyCtx (nestTok d) = .ok (.int 1, emptyCtx) := by
  induction d with
  | zero => rfl
  | succ n ih =>
    have e1 : 2 * (n + 1) + 1 = (2 * n + 2) + 1 := by ring
    rw [nestTok, e1, evalV_exprL]
    simp only [evalEachF]
    rw [show 2 * n + 2 = (2 * n + 1) + 1 from rfl, evalV_pyList, evalSeqF_single, ih]
    rfl

/-- C8 counterexample: the code imposes no recursion bound — there is no
depth limit beyond which evaluation fails: for every candidate limit
there is an expression of strictly greater nesting depth that evaluates
successfully in the empty context (no `RecursionLimitExceeded` error
exists anywhere in `lang.py`; deep inputs simply recurse, the fuel index
standing for the unbounded Python call stack). -/
theorem c8_no_recursion_limit_cex :
    ∃ deepInput : Nat → V, ∀ limit : Nat,
      tokDepth (deepInput limit) > limit ∧
      evalV (2 * limit + 1) emptyCtx (deepInput limit) = .ok (.int 1, emptyCtx) :=
  ⟨nestTok, fun limit => ⟨by rw [nestTok_depth]; omega, nestTok_eval limit⟩⟩

/-- C8 (corrected): evaluation succeeds at every nesting depth — the
`d`-fold nested expression has depth `2d + 2` and evaluates to `1` given
call-stack fuel proportional to its depth; the evaluator has no explicit
maximum recursion depth and no dedicated recursion-limit error. -/
theorem c8_unbounded_depth (d : Nat) :
    tokDepth (nestTok d) = 2 * d + 2 ∧
    evalV (2 * d + 1) emptyCtx (nestTok d) = .ok (.int 1, emptyCtx) :=
  ⟨nestTok_depth d, nestTok_eval d⟩

/-! ### C9: `Context.copy` independence, on an explicit heap model

The functional `Ctx` above cannot express Python aliasing, so the
`copy`/`__setitem__`/`__delitem__` trio is also rendered against an
explicit object store: `CtxObj` holds references (a shared reference to
the provider list, a reference to the owned dict), and the heap `Store`
holds the dict contents.  `ctxObjCopy` is `Context.copy` verbatim: same
`providersRef` (Python keeps the very list object), and a freshly
allocated dict initialized with a copy of the owned mapping
(`self.identifiers.copy()`). -/

/-- A `Context` object as references into the store. -/
structure CtxObj where
  providersRef : Nat
  identsRef : Nat
deriving DecidableEq

/-- The heap: provider-list objects and dict objects. -/
structure Store where
  provHeap : List (List (List (String × V)))
  dictHeap : List (List (String × V))

/-- Allocate a fresh dict object holding `d`. -/
def Store.allocDict (s : Store) (d : List (String × V)) : Store × Nat :=
  ({ s with dictHeap := s.dictHeap ++ [d] }, s.dictHeap.length)

/-- Contents of the dict object behind reference `r`. -/
def Store.dictAt (s : Store) (r : Nat) : List (String × V) :=
  (s.dictHeap[r]?).getD []

/-- `Context.copy` on the heap: share `providersRef`, allocate a new dict
with a copy of the owned mapping's contents. -/
def ctxObjCopy (s : Store) (c : CtxObj) : Store × CtxObj :=
  let (s1, r) := s.allocDict (s.dictAt c.identsRef)
  (s1, { providersRef := c.providersRef, identsRef := r })

/-- `Context.__setitem__` on the heap: update the owned dict in place. -/
def ctxObjSet (s : Store) (c : CtxObj) (n : String) (v : V) : Store :=
  { s with dictHeap := s.dictHeap.set c.identsRef (dictSet (s.dictAt c.identsRef) n v) }

/-- `Context.__delitem__` on the heap. -/
def ctxObjDel (s : Store) (c : CtxObj) (n : String) : Store :=
  if ((s.dictAt c.identsRef).lookup n).isSome then
    { s with dictHeap := s.dictHeap.set c.identsRef (dictDel (s.dictAt c.identsRef) n) }
  else s

/-- C9 (confirmed): for a live context object, `copy()` yields a context
sharing the provider-list reference but owning a fresh dict with equal
contents; afterwards, a set or delete through either context leaves the
other context's owned dict untouched (in both directions). -/
theorem c9_copy_independence (s : Store) (c : CtxObj) (n n2 : String) (v : V)
    (hc : c.identsRef < s.dictHeap.length) :
    (ctxObjCopy s c).2.providersRef = c.providersRef ∧
    (ctxObjCopy s c).1.dictAt (ctxObjCopy s c).2.identsRef = s.dictAt c.identsRef ∧
    (ctxObjSet (ctxObjCopy s c).1 (ctxObjCopy s c).2 n v).dictAt c.identsRef =
      (ctxObjCopy s c).1.dictAt c.identsRef ∧
    (ctxObjSet (ctxObjCopy s c).1 c n v).dictAt (ctxObjCopy s c).2.identsRef =
      (ctxObjCopy s c).1.dictAt (ctxObjCopy s c).2.identsRef ∧
    (ctxObjDel (ctxObjCopy s c).1 (ctxObjCopy s c).2 n2).dictAt c.identsRef =
      (ctxObjCopy s c).1.dictAt c.identsRef ∧
    (ctxObjDel (ctxObjCopy s c).1 c n2).dictAt (ctxObjCopy s c).2.identsRef =
      (ctxObjCopy s c).1.dictAt (ctxObjCopy s c).2.identsRef := by
  have hne : c.identsRef ≠ s.dictHeap.length := Nat.ne_of_lt hc
  refine ⟨rfl, ?_, ?_, ?_, ?_, ?_⟩
  · simp [ctxObjCopy, Store.allocDict, Store.dictAt,
      List.getElem?_append_right, List.getElem?_append,
      List.getElem?_eq_getElem hc]
  · simp only [ctxObjCopy, Store.allocDict, ctxObjSet, Store.dictAt]
    rw [List.getElem?_set_ne (by simpa using hne.symm)]
  · simp only [ctxObjCopy, Store.allocDict, ctxObjSet, Store.dictAt]
    rw [List.getElem?_set_ne (by simpa using hne)]
  · simp only [ctxObjCopy, Store.allocDict, ctxObjDel, Store.dictAt]
    split
    · rw [List.getElem?_set_ne (by simpa using hne.symm)]
    · rfl
  · simp only [ctxObjCopy, Store.allocDict, ctxObjDel, Store.dictAt]
    split
    · rw [List.getElem?_set_ne (by simpa using hne)]
    · rfl

/-- Witness for C9: a store with one context owning `{x: 1}`. -/
theorem c9_copy_independence_witness :
    (0 : Nat) < (Store.mk [] [[("x", V.int 1)]]).dictHeap.length ∧
    (ctxObjSet (ctxObjCopy (Store.mk [] [[("x", V.int 1)]]) (CtxObj.mk 0 0)).1
        (ctxObjCopy (Store.mk [] [[("x", V.int 1)]]) (CtxObj.mk 0 0)).2 "y" (V.int 2)).dictAt 0 =
      (ctxObjCopy (Store.mk [] [[("x", V.int 1)]]) (CtxObj.mk 0 0)).1.dictAt 0 :=
  ⟨by norm_num,
   (c9_copy_independence (Store.mk [] [[("x", V.int 1)]]) (CtxObj.mk 0 0)
     "y" "x" (V.int 2) (by norm_num)).2.2.1⟩

/-! ### C10: closure argument tokens are evaluated in the defining context -/

/-- C10 (confirmed): `Execution.evaluate` shadows its caller-context
parameter with `self.bindings` immediately and evaluates the supplied
argument tokens through the `context` variable captured from
`FunDef.evaluate` — the defining context — so the application's outcome
is entirely independent of the calling context: any two calling contexts
(in particular any two agreeing on the defining context's bindings) give
identical results on the same closure and argument tokens.  Concretely,
a closure over a defining context binding `a = 5`, applied to the
argument token `a` from a caller that binds `a = 99`, still receives the
argument value `5`. -/
theorem c10_args_eval_in_defining_ctx :
    (∀ (ev : EvalFun) (c1 c2 : Ctx) (args : List String)
      (bindIds : List (String × V)) (bindProv : List (List (String × V)))
      (defIds : List (String × V)) (defProv : List (List (String × V)))
      (body left right : List V),
      applyClosureVF ev c1 args bindIds bindProv defIds defProv body left right =
        applyClosureVF ev c2 args bindIds bindProv defIds defProv body left right) ∧
    applyClosureVF (evalV 10) { providers := [], identifiers := [("a", V.int 99)] }
      ["x"] [] [] [("a", V.int 5)] [] [.ident "x"]
      [] [.exprL [.pyList [.ident "a"]]] = .ok (.int 5) :=
  ⟨fun _ _ _ _ _ _ _ _ _ _ _ => rfl, rfl⟩

end Rester
